import Mathlib

/-!
Shallow embedding of the data pipeline of the hifi-gan fork
(src/meldataset.py and src/inference.py), together with theorems that
settle the specification claims about it.

Modelling conventions:
  * Python float arithmetic is modelled as exact rational arithmetic over ℚ;
    the real-valued spectral transforms are modelled over ℝ.
  * Audio buffers are lists of samples.  A mel tensor (with its unit batch
    dimension dropped) is modelled as a list of frames (columns), each frame
    a list of mel-bin values, so that slicing along the last (frame)
    dimension of the tensor is List.drop followed by List.take.
  * Python exceptions are modelled with Except PyErr.
  * A random.randint(a, b) draw is modelled by an arbitrary parameter
    constrained to the interval a..b in the theorems, plus an explicit
    validity check that errors when b < a, exactly as CPython's
    random.randint does.
-/

/-- Python exceptions that the modelled code can raise. -/
inductive PyErr where
  | typeError : PyErr
  | valueError : PyErr
deriving DecidableEq

/-- Python's built-in round applied to a rational value: round half to even
(banker's rounding), as CPython's round does on floats. -/
def pyRound (q : ℚ) : ℤ :=
  if q - ⌊q⌋ < 1/2 then ⌊q⌋
  else if 1/2 < q - ⌊q⌋ then ⌊q⌋ + 1
  else if ⌊q⌋ % 2 = 0 then ⌊q⌋ else ⌊q⌋ + 1

/-- Python's int() applied to a float value: truncation toward zero. -/
def pyInt (q : ℚ) : ℤ := if 0 ≤ q then ⌊q⌋ else ⌈q⌉

/-- math.ceil(segment_size / hop_size) from meldataset.py line 203, for a
positive hop_size. -/
def framesPerSeg (segment_size hop_size : ℕ) : ℕ :=
  (segment_size + hop_size - 1) / hop_size

/-- File-system model: a finite map from a directory path to the names of the
regular files directly inside it; a path that is not a key of the map is not
a directory. -/
def FSModel := List (String × List String)

/-- os.path.isdir on the file-system model. -/
def FSModel.isdir (fs : FSModel) (p : String) : Bool :=
  (List.lookup p fs).isSome

/-- The names of the regular files directly inside a directory (os.listdir
filtered by os.path.isfile, as on meldataset.py line 90). -/
def FSModel.listFiles (fs : FSModel) (p : String) : List String :=
  (List.lookup p fs).getD []

/-- A cls_pth corpus-config tree: each key maps either to a nested mapping
(the isinstance Mapping test of meldataset.py line 80) or to a list of
subdirectory names. -/
inductive CNode where
  | leaf : List String → CNode
  | branch : List (String × CNode) → CNode

/-- Lines 86-92 of meldataset.py: for each child named in a leaf value, if
base/key/child/ is a directory, append the paths of the files directly
inside it; a missing directory is silently skipped. -/
def leafFiles (fs : FSModel) (keyPath : String) (children : List String) : List String :=
  children.foldl
    (fun acc child =>
      let fd := keyPath ++ child ++ "/"
      if fs.isdir fd then acc ++ (fs.listFiles fd).map (fun f => fd ++ f) else acc)
    []

/-- Lines 76-94 of meldataset.py (recursive_file_extract).  The recursive
call on line 82 reads `flist, llist = recursive_file_extract(...)`, although
the function returns a single list: Python unpacks the returned list into two
variables (a ValueError unless it has exactly two elements), and on success
the following `filename_list + flist` on line 83 concatenates a list with a
string, a TypeError.  The embedding reproduces both failure modes. -/
def recursive_file_extract (fs : FSModel) (base_pth : String) :
    List (String × CNode) → Except PyErr (List String)
  | [] => Except.ok []
  | (key, CNode.branch m) :: _rest =>
    match recursive_file_extract fs (base_pth ++ key ++ "/") m with
    | Except.error e => Except.error e
    | Except.ok [_, _] => Except.error PyErr.typeError
    | Except.ok _ => Except.error PyErr.valueError
  | (key, CNode.leaf children) :: rest =>
    match recursive_file_extract fs base_pth rest with
    | Except.error e => Except.error e
    | Except.ok tail =>
      Except.ok (leafFiles fs (base_pth ++ key ++ "/") children ++ tail)

/-- The corpus config of claim C1, a single nested mapping level. -/
def c1Config : List (String × CNode) :=
  [("a", CNode.branch [("b", CNode.leaf ["x", "y"])])]

/-- The file system of claim C1: only /data/a/b/x/ exists, holding f1, f2. -/
def c1FS : FSModel := [("/data/a/b/x/", ["f1", "f2"])]

/-- Claim C1 (code bug): on the exact corpus of the claim the indexer does
not return the two file paths.  The inner level returns the two-element list
of paths under /data/a/b/x/, the unpacking of that single-list return value
on line 82 then binds flist to a string, and `filename_list + flist` on line
83 concatenates a list with a string, raising a TypeError. -/
theorem C1_recursive_extract_raises :
    recursive_file_extract c1FS "/data/" c1Config = Except.error PyErr.typeError := by
  simp [recursive_file_extract, leafFiles, c1FS, c1Config, FSModel.isdir, FSModel.listFiles]

/-- A Python dict key as used by the mel_spectrogram caches: the membership
test on meldataset.py line 59 uses the integer fmax value itself, while the
assignments on lines 61-62 use string keys. -/
inductive PyKey where
  | ikey : Int → PyKey
  | skey : String → PyKey
deriving DecidableEq

/-- The parameters from which librosa's mel filter-bank function computes a
mel basis deterministically (meldataset.py line 60); the cache stores the
basis identity as this parameter tuple. -/
structure MelBasisParams where
  sr : ℕ
  nfft : ℕ
  nmels : ℕ
  fmin : ℤ
  fmax : ℤ
deriving DecidableEq

/-- Python dict assignment d[k] = v: replace the binding in place when the
key is present, append it otherwise. -/
def dictSet {κ β : Type} [DecidableEq κ] (d : List (κ × β)) (k : κ) (v : β) :
    List (κ × β) :=
  if d.any (fun p => decide (p.1 = k)) then
    d.map (fun p => if p.1 = k then (k, v) else p)
  else d ++ [(k, v)]

/-- The process-wide cache state of meldataset.py lines 48-49: the mel_basis
dict and the hann_window dict (the latter keyed by device, storing the
window size it was built from). -/
structure MelCaches where
  mel_basis : List (PyKey × MelBasisParams)
  hann_window : List (String × ℕ)

/-- Lines 58-62 of mel_spectrogram: the guard tests membership of the plain
fmax value in mel_basis, while the assignment stores the computed basis
under the string key str(fmax) + "_" + str(device).  Returns the updated
caches and whether the basis was computed on this call. -/
def melSpecCacheUpdate (st : MelCaches) (sr nfft nmels : ℕ) (fmin fmax : ℤ)
    (win : ℕ) (device : String) : MelCaches × Bool :=
  if st.mel_basis.any (fun p => decide (p.1 = PyKey.ikey fmax)) then (st, false)
  else
    ({ mel_basis := dictSet st.mel_basis
         (PyKey.skey (toString fmax ++ "_" ++ device)) ⟨sr, nfft, nmels, fmin, fmax⟩,
       hann_window := dictSet st.hann_window device win }, true)

/-- Claim C3 (code bug): two successive mel_spectrogram calls with the same
fmax and the same device, starting from the empty caches, both recompute the
mel basis: the membership guard on line 59 looks up the integer fmax, which
is never a key of the cache, since entries are stored under the string
str(fmax) + "_" + device on line 61. -/
theorem C3_melbasis_recomputed :
    (melSpecCacheUpdate ⟨[], []⟩ 22050 1024 80 0 8000 1024 "cpu").2 = true ∧
    (melSpecCacheUpdate (melSpecCacheUpdate ⟨[], []⟩ 22050 1024 80 0 8000 1024 "cpu").1
        22050 1024 80 0 8000 1024 "cpu").2 = true := by
  constructor <;> rfl

/-- MAX_WAV_VALUE from meldataset.py line 14. -/
def MAX_WAV_VALUE : ℚ := 32768

/-- The single-slot waveform cache of a MelDataset (meldataset.py lines
139-141): the cached waveform and the remaining reuse count. -/
structure WavCache where
  cached_wav : List ℚ
  cache_ref_count : ℕ

/-- Lines 162-177 of MelDataset.__getitem__, the decode/normalize/resample/
cache stage.  The scipy.signal.resample collaborator is passed in as a
function; fileData and fileRate are what load_wav returns for the indexed
file.  Line 167 stores the waveform into cached_wav before the resampling on
line 170; the hit path returns cached_wav and decrements the counter. -/
def getitemLoadStage (resample : List ℚ → ℕ → List ℚ)
    (target_sr n_cache_reuse : ℕ) (fileData : List ℚ) (fileRate : ℕ)
    (st : WavCache) : List ℚ × WavCache :=
  if st.cache_ref_count = 0 then
    let audio0 := fileData.map (fun s => s / MAX_WAV_VALUE)
    let audio :=
      if fileRate ≠ target_sr then
        resample audio0 (pyRound ((audio0.length : ℚ) * target_sr / fileRate)).toNat
      else audio0
    (audio, ⟨audio0, n_cache_reuse⟩)
  else (st.cached_wav, ⟨st.cached_wav, st.cache_ref_count - 1⟩)

/-- Lines 69-74 of inference.py: normalize by the full-scale constant and,
on a sample-rate mismatch, resample to round(len * target / sr) samples. -/
def inferenceResampleStage (resample : List ℚ → ℕ → List ℚ)
    (target_sr : ℕ) (wavData : List ℚ) (sr : ℕ) : List ℚ :=
  let wav := wavData.map (fun s => s / MAX_WAV_VALUE)
  if sr ≠ target_sr then
    resample wav (pyRound ((wav.length : ℚ) * target_sr / sr)).toNat
  else wav

/-- Claim C9: when the loaded sample rate differs from the configured target
rate, the resampled buffer has exactly round(L * target_rate / source_rate)
samples (L the loaded length), in both the dataset loading path and the
inference path, for any resampler that returns the requested number of
samples (the scipy.signal.resample contract). -/
theorem C9_resample_length (resample : List ℚ → ℕ → List ℚ)
    (hres : ∀ x n, (resample x n).length = n)
    (target_sr n_cache_reuse : ℕ) (fileData : List ℚ) (fileRate : ℕ)
    (hsr : fileRate ≠ target_sr) :
    ((getitemLoadStage resample target_sr n_cache_reuse fileData fileRate ⟨[], 0⟩).1).length
        = (pyRound ((fileData.length : ℚ) * target_sr / fileRate)).toNat ∧
    (inferenceResampleStage resample target_sr fileData fileRate).length
        = (pyRound ((fileData.length : ℚ) * target_sr / fileRate)).toNat := by
  constructor <;> simp [getitemLoadStage, inferenceResampleStage, hsr, hres]

/-- A resampler instance satisfying the length contract, used by witnesses. -/
def constResample (_x : List ℚ) (n : ℕ) : List ℚ := List.replicate n 0

/-- Witness for C9 at a concrete input: 4 samples at 22050 Hz resampled to a
16000 Hz target. -/
theorem C9_resample_length_witness :
    ((getitemLoadStage constResample 16000 1 [1, 2, 3, 4] 22050 ⟨[], 0⟩).1).length
        = (pyRound ((([1, 2, 3, 4] : List ℚ).length : ℚ) * 16000 / 22050)).toNat ∧
    (inferenceResampleStage constResample 16000 [1, 2, 3, 4] 22050).length
        = (pyRound ((([1, 2, 3, 4] : List ℚ).length : ℚ) * 16000 / 22050)).toNat :=
  C9_resample_length constResample (fun _ n => by simp [constResample]) 16000 1
    [1, 2, 3, 4] 22050 (by decide)

/-- The loaded file of the C4 scenario: 4 samples at native rate 22050 Hz,
against a configured target rate of 16000 Hz. -/
def c4file : List ℚ := [1, 2, 3, 4]

/-- The miss-path call of the C4 scenario (cache counter at zero). -/
def c4miss (resample : List ℚ → ℕ → List ℚ) : List ℚ × WavCache :=
  getitemLoadStage resample 16000 1 c4file 22050 ⟨[], 0⟩

/-- The immediately following hit-path call of the C4 scenario. -/
def c4hit (resample : List ℚ → ℕ → List ℚ) : List ℚ × WavCache :=
  getitemLoadStage resample 16000 1 c4file 22050 (c4miss resample).2

/-- Claim C4 (code bug): the buffer the dataset hands out on a cache hit is
the cached pre-resampling waveform, not the resampled one: line 167 stores
cached_wav before the resampling on line 170.  Concretely, with 4 loaded
samples at 22050 Hz and a 16000 Hz target, the miss-path audio has the 3
resampled samples but the following hit-path audio is the 4-sample
normalized unresampled buffer, for any resampler honoring the length
contract. -/
theorem C4_cache_hit_unresampled (resample : List ℚ → ℕ → List ℚ)
    (hres : ∀ x n, (resample x n).length = n) :
    (c4hit resample).1 = c4file.map (fun s => s / MAX_WAV_VALUE) ∧
    (c4miss resample).1.length = 3 ∧
    (c4hit resample).1 ≠ (c4miss resample).1 := by
  have hhit : (c4hit resample).1 = c4file.map (fun s => s / MAX_WAV_VALUE) := rfl
  have hmiss : (c4miss resample).1.length = 3 := by
    rw [show (c4miss resample).1 = resample (c4file.map fun s => s / MAX_WAV_VALUE)
          (pyRound (((c4file.map fun s => s / MAX_WAV_VALUE).length : ℚ) * 16000 / 22050)).toNat
        from rfl, hres]
    norm_num [c4file, pyRound, MAX_WAV_VALUE]
    decide
  refine ⟨hhit, hmiss, ?_⟩
  intro h
  have h1 : (c4hit resample).1.length = 4 := by rw [hhit]; rfl
  rw [h, hmiss] at h1
  exact absurd h1 (by decide)

/-- Witness for C4 with the constant resampler instance. -/
theorem C4_cache_hit_unresampled_witness :
    (c4hit constResample).1 = c4file.map (fun s => s / MAX_WAV_VALUE) ∧
    (c4miss constResample).1.length = 3 ∧
    (c4hit constResample).1 ≠ (c4miss constResample).1 :=
  C4_cache_hit_unresampled constResample (fun _ n => by simp [constResample])

/-- Lines 114-116 of get_dataset_filelist: after the global shuffle, the
training set is the first int(N * (1 - num_validation)) entries of the
shuffled filelist and the validation set is the remaining entries; the
function takes the already-shuffled list. -/
def datasetSplit (num_validation : ℚ) (filelist : List String) :
    List String × List String :=
  (filelist.take (pyInt ((filelist.length : ℚ) * (1 - num_validation))).toNat,
   filelist.drop (pyInt ((filelist.length : ℚ) * (1 - num_validation))).toNat)

/-- Claim C7: with num_validation = 1/10, the training set has exactly
⌊N * 9/10⌋ entries, the validation set the remaining N - ⌊N * 9/10⌋ entries,
and training ++ validation is the full shuffled list, so there is no overlap
and no omission. -/
theorem C7_split_sizes (l : List String) :
    ((datasetSplit (1/10) l).1).length = (⌊(l.length : ℚ) * (9/10)⌋).toNat ∧
    ((datasetSplit (1/10) l).2).length = l.length - (⌊(l.length : ℚ) * (9/10)⌋).toNat ∧
    (datasetSplit (1/10) l).1 ++ (datasetSplit (1/10) l).2 = l := by
  have h0 : (0 : ℚ) ≤ (l.length : ℚ) * (1 - 1/10) := by positivity
  have hpy : pyInt ((l.length : ℚ) * (1 - 1/10)) = ⌊(l.length : ℚ) * (9/10)⌋ := by
    rw [pyInt, if_pos h0]
    norm_num
  have hle : (⌊(l.length : ℚ) * (9/10)⌋).toNat ≤ l.length := by
    have hq : (l.length : ℚ) * (9/10) ≤ (l.length : ℚ) := by
      have hnn : (0 : ℚ) ≤ (l.length : ℚ) := Nat.cast_nonneg _
      nlinarith
    have hz : ⌊(l.length : ℚ) * (9/10)⌋ ≤ (l.length : ℤ) := by
      calc ⌊(l.length : ℚ) * (9/10)⌋ ≤ ⌊(l.length : ℚ)⌋ := Int.floor_le_floor hq
        _ = (l.length : ℤ) := Int.floor_natCast _
    omega
  refine ⟨?_, ?_, ?_⟩
  · simp only [datasetSplit, List.length_take]
    rw [hpy]
    omega
  · simp only [datasetSplit, List.length_drop]
    rw [hpy]
  · simp only [datasetSplit]
    exact List.take_append_drop _ l

/-- Lines 183-188 of MelDataset.__getitem__ (non-fine-tuning split): slice a
segment of segment_size samples at the drawn offset when the audio is long
enough; zero-pad on the right to segment_size otherwise. -/
def segmentNonFT {α : Type} [Zero α] (segment_size audio_start : ℕ)
    (audio : List α) : List α :=
  if segment_size ≤ audio.length then
    (audio.drop audio_start).take segment_size
  else audio ++ List.replicate (segment_size - audio.length) 0

/-- Claim C8: in non-fine-tuning mode with splitting the returned audio
segment always has exactly segment_size samples, for every drawn start
offset in the 0..(L - segment_size) range random.randint draws from. -/
theorem C8_segment_length {α : Type} [Zero α] (segment_size audio_start : ℕ)
    (audio : List α) (hstart : audio_start ≤ audio.length - segment_size) :
    (segmentNonFT segment_size audio_start audio).length = segment_size := by
  by_cases h : segment_size ≤ audio.length
  · simp only [segmentNonFT, if_pos h, List.length_take, List.length_drop]
    omega
  · simp only [segmentNonFT, if_neg h, List.length_append, List.length_replicate]
    omega

/-- Witness for C8: a 5-sample audio, segment_size 3, drawn offset 2. -/
theorem C8_segment_length_witness :
    (segmentNonFT 3 2 ([5, 6, 7, 8, 9] : List ℤ)).length = 3 :=
  C8_segment_length 3 2 [5, 6, 7, 8, 9] (by decide)

/-- The upper bound of the random.randint draw on meldataset.py line 185
(non-fine-tuning path): max_audio_start = audio length - segment_size, as a
Python integer. -/
def nonFTDrawBound (audio_len segment_size : ℕ) : ℤ :=
  (audio_len : ℤ) - segment_size

/-- The upper bound of the random.randint draw on meldataset.py line 206
(fine-tuning path): mel frame count - frames_per_seg - 1, as a Python
integer. -/
def ftDrawBound (mel_frames fps : ℕ) : ℤ :=
  (mel_frames : ℤ) - fps - 1

/-- random.randint(lo, hi) raises ValueError when hi < lo; modelled as the
precondition check of the draw. -/
def randintCheck (lo hi : ℤ) : Except PyErr Unit :=
  if lo ≤ hi then Except.ok () else Except.error PyErr.valueError

/-- Lines 202-211 of MelDataset.__getitem__ (fine-tuning split).  The mel
tensor is a list of frames; mel_start is the drawn random frame offset.  When
the audio is at least segment_size samples long, the code draws
random.randint(0, mel_frames - frames_per_seg - 1), slices the mel frames
mel_start..mel_start+frames_per_seg and the audio sample range
mel_start*hop_size..(mel_start+frames_per_seg)*hop_size; otherwise it
right-pads the mel with zero frames to frames_per_seg and the audio with
zeros to segment_size. -/
def segmentFT {α : Type} [Zero α] (segment_size hop_size mel_start : ℕ)
    (mel : List (List α)) (audio : List α) :
    Except PyErr (List (List α) × List α) :=
  let fps := framesPerSeg segment_size hop_size
  if segment_size ≤ audio.length then
    match randintCheck 0 (ftDrawBound mel.length fps) with
    | Except.error e => Except.error e
    | Except.ok _ =>
      Except.ok ((mel.drop mel_start).take fps,
        (audio.drop (mel_start * hop_size)).take
          ((mel_start + fps) * hop_size - mel_start * hop_size))
  else
    Except.ok
      (mel ++ List.replicate (fps - mel.length)
          (List.replicate (mel.headD []).length 0),
       audio ++ List.replicate (segment_size - audio.length) 0)

/-- The 10-frame mel of the C5 counterexample, one mel bin per frame. -/
def c5mel : List (List ℤ) :=
  [[0], [1], [2], [3], [4], [5], [6], [7], [8], [9]]

/-- Claim C5 counterexample: with segment_size 4, hop_size 2 (frames_per_seg
= 2), a 10-frame mel and a 4-sample audio (so audio length ≥ segment_size),
the draw mel_start = 7 is valid (the randint bound is exactly 7), the sliced
mel has the claimed 2 frames, but the sliced audio is empty instead of
frames_per_seg * hop_size = 4 samples long. -/
theorem C5_counterexample :
    ftDrawBound c5mel.length (framesPerSeg 4 2) = 7 ∧
    Except.map (fun p => (p.1.length, p.2.length)) (segmentFT 4 2 7 c5mel ([0, 0, 0, 0] : List ℤ))
      = Except.ok (2, 0) ∧
    (2, 0) ≠ (2, framesPerSeg 4 2 * 2) := by
  refine ⟨rfl, rfl, by decide⟩

/-- Claim C5 amended: in fine-tuning mode with splitting, when the audio is
at least segment_size samples long, the mel has at least frames_per_seg + 1
frames, the drawn mel_start is within the randint range, and the audio
covers the drawn slice ((mel_start + frames_per_seg) * hop_size ≤ audio
length, which always holds for a mel computed from the same audio), the
sliced mel has exactly frames_per_seg frames and the sliced audio exactly
frames_per_seg * hop_size samples. -/
theorem C5_amended_slice_lengths {α : Type} [Zero α]
    (segment_size hop_size mel_start : ℕ) (mel : List (List α)) (audio : List α)
    (hlen : segment_size ≤ audio.length)
    (hfr : framesPerSeg segment_size hop_size + 1 ≤ mel.length)
    (hdraw : (mel_start : ℤ) ≤ ftDrawBound mel.length (framesPerSeg segment_size hop_size))
    (hcov : (mel_start + framesPerSeg segment_size hop_size) * hop_size ≤ audio.length) :
    Except.map (fun p => (p.1.length, p.2.length))
        (segmentFT segment_size hop_size mel_start mel audio)
      = Except.ok (framesPerSeg segment_size hop_size,
          framesPerSeg segment_size hop_size * hop_size) := by
  have hb : 0 ≤ ftDrawBound mel.length (framesPerSeg segment_size hop_size) := by
    simp only [ftDrawBound]
    omega
  have h1 : min (framesPerSeg segment_size hop_size) (mel.length - mel_start)
      = framesPerSeg segment_size hop_size := by
    simp only [ftDrawBound] at hdraw
    omega
  have h2 : min ((mel_start + framesPerSeg segment_size hop_size) * hop_size
        - mel_start * hop_size) (audio.length - mel_start * hop_size)
      = framesPerSeg segment_size hop_size * hop_size := by
    rw [Nat.add_mul] at hcov ⊢
    omega
  simp only [segmentFT, if_pos hlen, randintCheck, if_pos hb, Except.map,
    List.length_take, List.length_drop, h1, h2]

/-- Witness for C5 amended: segment_size 4, hop_size 2, a 3-frame mel, draw
0, and a 4-sample audio. -/
theorem C5_amended_slice_lengths_witness :
    Except.map (fun p => (p.1.length, p.2.length))
        (segmentFT 4 2 0 ([[1], [1], [1]] : List (List ℤ)) [0, 0, 0, 0])
      = Except.ok (framesPerSeg 4 2, framesPerSeg 4 2 * 2) :=
  C5_amended_slice_lengths 4 2 0 [[1], [1], [1]] [0, 0, 0, 0]
    (by decide) (by decide) (by decide) (by decide)

/-- Claim C6 counterexample: with segment_size 4, hop_size 2 (frames_per_seg
= 2), a fine-tuning mel of only 2 frames and an audio of exactly 4 samples,
the guard audio length ≥ segment_size passes but the randint upper bound is
-1 and the draw raises a ValueError: the bound is not non-negative by
construction. -/
theorem C6_counterexample :
    ftDrawBound 2 (framesPerSeg 4 2) = -1 ∧
    segmentFT 4 2 0 ([[1], [1]] : List (List ℤ)) [0, 0, 0, 0]
      = Except.error PyErr.valueError := by
  constructor <;> rfl

/-- Claim C6 amended: the non-fine-tuning draw bound audio_len - segment_size
is non-negative whenever the draw is reached (audio length ≥ segment_size);
the fine-tuning draw bound mel_frames - frames_per_seg - 1 is non-negative
iff mel_frames ≥ frames_per_seg + 1, and when it is negative while the audio
is at least segment_size samples long, the fine-tuning split raises a
ValueError from the draw instead of being prevented by construction. -/
theorem C6_amended_bounds :
    (∀ audio_len segment_size : ℕ, segment_size ≤ audio_len →
      0 ≤ nonFTDrawBound audio_len segment_size) ∧
    (∀ mel_frames fps : ℕ, 0 ≤ ftDrawBound mel_frames fps ↔ fps + 1 ≤ mel_frames) ∧
    (∀ (segment_size hop_size mel_start : ℕ) (mel : List (List ℚ)) (audio : List ℚ),
      segment_size ≤ audio.length →
      ftDrawBound mel.length (framesPerSeg segment_size hop_size) < 0 →
      segmentFT segment_size hop_size mel_start mel audio
        = Except.error PyErr.valueError) := by
  refine ⟨?_, ?_, ?_⟩
  · intro a s h
    simp only [nonFTDrawBound]
    omega
  · intro m f
    simp only [ftDrawBound]
    omega
  · intro s hp ms mel audio hlen hneg
    simp only [segmentFT, if_pos hlen, randintCheck, if_neg (by omega : ¬ (0 : ℤ) ≤ ftDrawBound mel.length (framesPerSeg s hp))]

/-- Witness for C6 amended, at the concrete inputs of the two bound shapes
and the error case. -/
theorem C6_amended_bounds_witness :
    0 ≤ nonFTDrawBound 5 3 ∧
    (0 ≤ ftDrawBound 4 2 ↔ 2 + 1 ≤ 4) ∧
    segmentFT 4 2 0 ([[1], [1]] : List (List ℚ)) [0, 0, 0, 0]
      = Except.error PyErr.valueError :=
  ⟨C6_amended_bounds.1 5 3 (by decide), C6_amended_bounds.2.1 4 2,
    C6_amended_bounds.2.2 4 2 0 [[1], [1]] [0, 0, 0, 0] (by decide) (by decide)⟩

/-- Lines 125-128 of MelDataset.__init__, with the Python global random
generator made explicit: pySeed models random.seed (building a generator
state from an integer seed) and pyShuffle models random.shuffle as a
deterministic function of the generator state.  The prior state is whatever
the process-wide generator state was before construction (in particular the
result of seeding with any externally configured seed value); line 126
calls random.seed(1234) unconditionally before the optional shuffle, and
self.audio_files is the (in-place shuffled) training_files list. -/
def melDatasetInitFiles {α R : Type} (pySeed : ℕ → R)
    (pyShuffle : R → List α → List α) (shuffle : Bool) (_priorState : R)
    (training_files : List α) : List α :=
  let st := pySeed 1234
  if shuffle then pyShuffle st training_files else training_files

/-- Claim C10: with shuffle=True the dataset's file order is the fixed-seed
(1234) shuffle of the caller's list and is independent of the prior
generator state: two constructions whose ambient generator states come from
any two externally configured seed values yield the identical order. -/
theorem C10_seed_independence {α R : Type} (pySeed : ℕ → R)
    (pyShuffle : R → List α → List α) (seed1 seed2 : ℕ) (files : List α) :
    melDatasetInitFiles pySeed pyShuffle true (pySeed seed1) files
      = melDatasetInitFiles pySeed pyShuffle true (pySeed seed2) files ∧
    melDatasetInitFiles pySeed pyShuffle true (pySeed seed1) files
      = pyShuffle (pySeed 1234) files :=
  ⟨rfl, rfl⟩

/-- Dot product of two real vectors, the row action of the mel basis. -/
noncomputable def dotR (u v : List ℝ) : ℝ :=
  (List.zipWith (fun a b => a * b) u v).sum

/-- Mel projection: the basis matrix (one row per mel bin) applied to a
spectrum column. -/
noncomputable def melProject (basis : List (List ℝ)) (col : List ℝ) : List ℝ :=
  basis.map (fun row => dotR row col)

/-- torchaudio Spectrogram applied to one complex STFT frame (a list of
(re, im) bins): each bin becomes |z| ^ power. -/
noncomputable def taSpectrogramFrame (power : ℕ) (frame : List (ℝ × ℝ)) : List ℝ :=
  frame.map (fun z => Real.sqrt (z.1 ^ 2 + z.2 ^ 2) ^ power)

/-- torchaudio MelSpectrogram on the complex STFT frames: the power spectrum
of each frame projected through the mel basis.  The STFT front end (padding,
Hann window, one-sided real-input transform) is shared by both extraction
paths and abstracted as the list of complex frames given as input. -/
noncomputable def taMelSpectrogram (power : ℕ) (basis : List (List ℝ))
    (frames : List (List (ℝ × ℝ))) : List (List ℝ) :=
  frames.map (fun fr => melProject basis (taSpectrogramFrame power fr))

/-- The mel tensor computed by MelDataset.__getitem__ on the non-fine-tuning
path (meldataset.py line 193): the torchaudio transform configured with
power = 2 on line 155, with nothing applied afterwards. -/
noncomputable def getitemMel (basis : List (List ℝ))
    (frames : List (List (ℝ × ℝ))) : List (List ℝ) :=
  taMelSpectrogram 2 basis frames

/-- dynamic_range_compression_torch of meldataset.py lines 30-31:
log(clamp(x, min=clip_val) * C). -/
noncomputable def dynamic_range_compression_torch (x C clip_val : ℝ) : ℝ :=
  Real.log (max x clip_val * C)

/-- spectral_normalize_torch (meldataset.py lines 38-40), which passes the
default C = 1 and clip_val = 1e-5. -/
noncomputable def spectral_normalize_torch (x : ℝ) : ℝ :=
  dynamic_range_compression_torch x 1 (1e-5)

/-- Modelled from the spec's words, for the refinement comparison of claim
C2: the extraction the claim asserts, taking the magnitude (not the squared
power) of each STFT bin, projecting it through the mel basis, then applying
the log-dynamic-range compression log(clamp(mel, min=1e-5)). -/
noncomputable def claimedMel (basis : List (List ℝ))
    (frames : List (List (ℝ × ℝ))) : List (List ℝ) :=
  (frames.map (fun fr =>
      melProject basis (fr.map (fun z => Real.sqrt (z.1 ^ 2 + z.2 ^ 2))))).map
    (fun col => col.map spectral_normalize_torch)

/-- Claim C2 counterexample: with the one-bin basis [[1]] and the single
complex STFT frame [(1, 0)], the dataset transform yields [[1]] while the
claimed log-compressed magnitude extraction yields [[log 1]] = [[0]]; the
mel tensor returned by __getitem__ is not the claimed value. -/
theorem C2_counterexample :
    getitemMel [[1]] [[(1, 0)]] ≠ claimedMel [[1]] [[(1, 0)]] := by
  intro h
  have h1 : getitemMel [[1]] [[(1, 0)]] = [[1]] := by
    norm_num [getitemMel, taMelSpectrogram, taSpectrogramFrame, melProject,
      dotR, Real.sqrt_one]
  have h2 : claimedMel [[1]] [[(1, 0)]] = [[0]] := by
    have hmax : max (1 : ℝ) (1e-5) = 1 := max_eq_left (by norm_num)
    norm_num [claimedMel, melProject, dotR, spectral_normalize_torch,
      dynamic_range_compression_torch, Real.sqrt_one, hmax, Real.log_one]
  rw [h1, h2] at h
  norm_num at h

/-- Claim C2 amended: the effective extraction used by the dataset is the
power-2 path with no compression: for every mel basis and every list of
complex STFT frames, the mel tensor of MelDataset.__getitem__ is the mel
projection of the squared magnitudes re^2 + im^2 of the STFT bins, with no
logarithmic compression applied afterwards. -/
theorem C2_power2_no_compression (basis : List (List ℝ))
    (frames : List (List (ℝ × ℝ))) :
    getitemMel basis frames
      = frames.map (fun fr =>
          melProject basis (fr.map (fun z => z.1 ^ 2 + z.2 ^ 2))) := by
  have hsq : ∀ z : ℝ × ℝ, Real.sqrt (z.1 ^ 2 + z.2 ^ 2) ^ 2 = z.1 ^ 2 + z.2 ^ 2 :=
    fun z => Real.sq_sqrt (by positivity)
  simp only [getitemMel, taMelSpectrogram, taSpectrogramFrame, hsq]
